import Mathlib

/-!
Verification of the data-acquisition / aggregation / transform core of the
sector money-flow heat-map script (src/资金流向热力.py), shallowly embedded.

Naming: the source's Chinese column names are rendered in English:
  日期 = date, 开盘 = openPrice, 收盘 = closePrice, 最高 = high, 最低 = low,
  成交量 = volume, 成交额 = amount, 振幅 = amplitude, 涨跌幅 = pctChg,
  换手率 = turnoverRate, 板块名称 = sectorName, 量价强度 = volPriceIntensity,
  成交额（亿） = amountYi, 成交量（万手） = volumeWanShou.

Numeric cells are modelled as `Option ℚ`: `none` is pandas NaN (a cell that
`pd.to_numeric(errors="coerce")` failed to parse), `some q` a parsed number.
-/

/-- Error values carried by a raised Python exception (`str(e)` is all the
program ever uses of them). -/
abbrev Err := String

/-- One historical trading row as returned by the upstream provider
`ak.stock_board_industry_hist_em` (columns: date, open, close, high, low,
volume, turnover amount, amplitude, percent-change, turnover rate). -/
structure HistRow where
  date : String
  openPrice : Option ℚ
  closePrice : Option ℚ
  high : Option ℚ
  low : Option ℚ
  volume : Option ℚ
  amount : Option ℚ
  amplitude : Option ℚ
  pctChg : Option ℚ
  turnoverRate : Option ℚ
  deriving Repr, DecidableEq

/-- A fetched dataframe: a list of daily rows, oldest first (window order). -/
abbrev Df := List HistRow

/-- The memoization key of `get_data_with_retry`: the argument triple
(symbol, start_date, end_date) as passed at its single call site. -/
abbrev Key := String × String × String

/-- The remote call `ak.stock_board_industry_hist_em` is modelled as an
oracle giving, for each attempt index, either a dataframe or a raised
exception. -/
abbrev Oracle := Nat → Except Err Df

/-- The retry loop body of `get_data_with_retry` (source lines 12-24):

    for attempt in range(max_retries):
        try:
            df = ak.stock_board_industry_hist_em(...)
            return df
        except Exception as e:
            if attempt == max_retries - 1:
                raise
            time.sleep(2 ** attempt)  # exponential backoff

`retryLoop oracle max_retries attempt remaining` runs the loop from index
`attempt` with `remaining = max_retries - attempt` iterations left and
returns `(outcome, sleeps, remoteCalls)`:
* `outcome` is `some (.ok df)` on `return df`, `some (.error e)` on `raise`,
  and `none` when the loop finishes without executing (Python falls off the
  end and returns None, which happens only when `max_retries ≤ 0`);
* `sleeps` is the list of `time.sleep` durations performed, in order;
* `remoteCalls` counts the invocations of the remote call. -/
def retryLoop (oracle : Oracle) (max_retries : Nat) :
    Nat → Nat → Option (Except Err Df) × List Nat × Nat
  | _, 0 => (none, [], 0)
  | attempt, remaining + 1 =>
    match oracle attempt with
    | .ok df => (some (.ok df), [], 1)
    | .error e =>
      if attempt = max_retries - 1 then
        (some (.error e), [], 1)
      else
        let rest := retryLoop oracle max_retries (attempt + 1) remaining
        (rest.1, 2 ^ attempt :: rest.2.1, rest.2.2 + 1)

/-- The `functools.lru_cache` entry list: most recently used first. -/
abbrev Cache := List (Key × Df)

/-- Capacity of the `lru_cache`, as written in the source: `maxsize=32`. -/
def lruMaxsize : Nat := 32

/-- Cache lookup: the value stored for `k`, if present. -/
def cacheLookup (c : Cache) (k : Key) : Option Df :=
  (c.find? fun p => decide (p.1 = k)).map (fun p => p.2)

/-- On a cache hit `lru_cache` moves the entry to most-recently-used. -/
def cacheTouch (c : Cache) (k : Key) (v : Df) : Cache :=
  (k, v) :: c.filter fun p => !(decide (p.1 = k))

/-- On a miss that returns normally, `lru_cache` inserts the new entry and
evicts the least recently used entry if the capacity is exceeded. -/
def cacheInsert (c : Cache) (k : Key) (v : Df) : Cache :=
  ((k, v) :: c).take lruMaxsize

instance {ε α : Type} [DecidableEq ε] [DecidableEq α] :
    DecidableEq (Except ε α) := fun a b =>
  match a, b with
  | .ok x, .ok y =>
    if h : x = y then .isTrue (by rw [h])
    else .isFalse (fun hc => by cases hc; exact h rfl)
  | .error x, .error y =>
    if h : x = y then .isTrue (by rw [h])
    else .isFalse (fun hc => by cases hc; exact h rfl)
  | .ok _, .error _ => .isFalse (fun hc => by cases hc)
  | .error _, .ok _ => .isFalse (fun hc => by cases hc)

/-- Full outcome of one call to the memoized `get_data_with_retry`. -/
structure CallResult where
  /-- Either `some (.ok df)` = returned `df`; `some (.error e)` = raised `e`;
  `none` = returned Python `None` (only when `max_retries ≤ 0`). -/
  result : Option (Except Err Df)
  /-- The lru_cache state after the call. -/
  cache : Cache
  /-- How many times the remote call was invoked during this call. -/
  remoteCalls : Nat
  /-- The backoff sleeps performed during this call, in order. -/
  sleeps : List Nat
  deriving Repr, DecidableEq

/-- The function `get_data_with_retry` (source lines 10-24): the retry loop wrapped in
`@lru_cache(maxsize=32)`.  A hit returns the cached dataframe with no remote
activity; a miss runs the retry loop and caches the result only when the
body returns a dataframe (`lru_cache` never caches a raised exception).
The `none` outcome — the body returning Python `None`, possible only for
`max_retries ≤ 0`, which the program never uses (its calls take the
default 3) — is left uncached in the model. -/
def get_data_with_retry (c : Cache) (k : Key) (oracle : Oracle)
    (max_retries : Nat) : CallResult :=
  match cacheLookup c k with
  | some v => ⟨some (.ok v), cacheTouch c k v, 0, []⟩
  | none =>
    let r := retryLoop oracle max_retries 0 max_retries
    match r.1 with
    | some (.ok df) => ⟨some (.ok df), cacheInsert c k df, r.2.2, r.2.1⟩
    | other => ⟨other, c, r.2.2, r.2.1⟩

/-- Model of `df.iloc[-1]`: the last row of the fetched dataframe; raises an
IndexError when the dataframe is empty (source line 39). -/
def iloc_last (df : Df) : Except Err HistRow :=
  match df.getLast? with
  | some r => .ok r
  | none => .error "single positional indexer is out-of-bounds"

/-- The per-sector body of the loop in `get_board_data` (source lines
33-41): fetch the sector's window, take its last row.  Either step may
raise; both kinds of exception reach the same `except` clause. -/
def fetchLatest (fetch : String → Except Err Df) (name : String) :
    Except Err HistRow :=
  (fetch name).bind iloc_last

/-- The function `get_board_data` (source lines 28-46), with the behavior of
`get_data_with_retry` for this pass abstracted as
`fetch : sector name → Except Err Df` (the date window is fixed inside the
loop).  Returns the accumulated `data_list` — each kept row tagged with its
`板块名称` (sector name) — together with the `st.warning` calls emitted, as
(sector name, error) pairs, in loop order.  A failing sector adds a warning
and `continue`s; nothing escapes the loop. -/
def get_board_data (sectors : List String)
    (fetch : String → Except Err Df) :
    List (HistRow × String) × List (String × Err) :=
  match sectors with
  | [] => ([], [])
  | name :: rest =>
    let acc := get_board_data rest fetch
    match fetchLatest fetch name with
    | .ok latest => ((latest, name) :: acc.1, acc.2)
    | .error e => (acc.1, (name, e) :: acc.2)

/-- NaN-propagating product of two numeric cells (pandas column product). -/
def cellMul (a b : Option ℚ) : Option ℚ :=
  match a, b with
  | some x, some y => some (x * y)
  | _, _ => none

/-- NaN-propagating division of a numeric cell by a nonzero constant. -/
def cellDiv (a : Option ℚ) (c : ℚ) : Option ℚ :=
  match a with
  | some x => some (x / c)
  | none => none

/-- A row of the table produced by `process_data`: the input columns plus
the derived columns, with `pctChg` (涨跌幅) overwritten by its scaled
value. -/
structure ProcRow where
  date : String
  sectorName : String
  openPrice : Option ℚ
  closePrice : Option ℚ
  high : Option ℚ
  low : Option ℚ
  volume : Option ℚ
  amount : Option ℚ
  amplitude : Option ℚ
  /-- Column 涨跌幅 after the final scaling step of line 57. -/
  pctChg : Option ℚ
  turnoverRate : Option ℚ
  /-- Column 量价强度 = 涨跌幅 * 换手率, computed before the scaling of 涨跌幅. -/
  volPriceIntensity : Option ℚ
  /-- Column 成交额（亿） = 成交额 / 1e8. -/
  amountYi : Option ℚ
  /-- Column 成交量（万手） = 成交量 / 10000. -/
  volumeWanShou : Option ℚ
  deriving Repr, DecidableEq

/-- A row of the aggregated table entering `process_data`: a `HistRow`
plus the sector-name column added by `get_board_data`. -/
structure BoardRow where
  row : HistRow
  sectorName : String
  deriving Repr, DecidableEq

/-- The column arithmetic of `process_data` on one row (source lines
53-57).  The cells are already numeric-or-NaN, which models the
`pd.to_numeric(errors="coerce")` coercion of line 51:

    df['量价强度'] = df['涨跌幅'] * df['换手率']
    df['成交额（亿）'] = df['成交额'] / 1e8
    df['成交量（万手）'] = df['成交量'] / 10000
    df['涨跌幅'] = df['涨跌幅'] * 100

Note 量价强度 uses the stored 涨跌幅, before it is scaled by 100. -/
def processRow (b : BoardRow) : ProcRow :=
  { date := b.row.date
    sectorName := b.sectorName
    openPrice := b.row.openPrice
    closePrice := b.row.closePrice
    high := b.row.high
    low := b.row.low
    volume := b.row.volume
    amount := b.row.amount
    amplitude := b.row.amplitude
    pctChg := cellMul b.row.pctChg (some 100)
    turnoverRate := b.row.turnoverRate
    volPriceIntensity := cellMul b.row.pctChg b.row.turnoverRate
    amountYi := cellDiv b.row.amount ((10 : ℚ) ^ 8)
    volumeWanShou := cellDiv b.row.volume 10000 }

/-- The row-kept test of `df = df[df['成交量'] > 0]`: in pandas, `NaN > 0`
is False, so a NaN volume is dropped. -/
def volumePositive (r : ProcRow) : Bool :=
  match r.volume with
  | some v => decide (0 < v)
  | none => false

/-- The row pipeline of `process_data` on a frame that has its columns:
derive the new columns row-wise, then `dropna(subset=['涨跌幅'])`, then
keep only rows with 成交量 > 0 (source lines 53-61). -/
def processRows (df : List BoardRow) : List ProcRow :=
  (((df.map processRow).filter fun r => r.pctChg.isSome).filter
    volumePositive)

/-- The function `process_data` (source lines 49-63).  On the empty
aggregate frame it raises: `get_board_data` returns `pd.DataFrame([])`
(line 46), a frame with no columns at all, so the column selection
`df[numeric_cols]` at line 51 raises a KeyError before any row is
processed.  On a nonempty aggregate (built from row dicts, so the columns
exist) it runs the row pipeline `processRows`. -/
def process_data (df : List BoardRow) : Except Err (List ProcRow) :=
  match df with
  | [] => .error "None of [numeric_cols] are in the [columns]"
  | _ :: _ => .ok (processRows df)

/-- Lexicographic comparison of two strings character by character — the
elementwise string comparison pandas performs in
`processed_df['日期'] >= cutoff` (both sides are `%Y-%m-%d` strings). -/
def strLeB : List Char → List Char → Bool
  | [], _ => true
  | _ :: _, [] => false
  | a :: as, b :: bs =>
    if a < b then true
    else if a = b then strLeB as bs
    else false

/-- The date filter of `main` (source lines 112-114): keep the rows whose
日期 is on or after the cutoff string. -/
def dateFilter (cutoff : String) (rows : List ProcRow) : List ProcRow :=
  rows.filter fun r => strLeB cutoff.data r.date.data

/-- What `main` does after loading data, distilled to the decision the
spec talks about (source lines 108-119): crash on an uncaught exception,
warn and stop on an empty filtered table, or render a chart. -/
inductive MainOutcome where
  /-- An exception escaped `main` (nothing catches `process_data`): the
  script crashes. -/
  | crashed (e : Err)
  /-- Warned and returned without a chart (source lines 117-119). -/
  | emptyWarning
  /-- Rendering proceeds on the filtered table. -/
  | chart (rows : List ProcRow)
  deriving Repr, DecidableEq

/-- The tail of `main` (source lines 108-119): process the aggregated
table — the call at line 109 is not inside any try/except, so a KeyError
from `process_data` propagates out of `main` — then apply the
trailing-days date filter and branch on emptiness. -/
def mainAfterLoad (raw : List BoardRow) (cutoff : String) : MainOutcome :=
  match process_data raw with
  | .error e => .crashed e
  | .ok processed =>
    let filtered := dateFilter cutoff processed
    if filtered.isEmpty then .emptyWarning else .chart filtered

/-- The `@st.cache_data(ttl=3600)` snapshot cache wrapping
`get_board_data` (source line 27).  The state is the cached value with the
time it was stored; `ttlSeconds` is one hour.  `cachedSnapshot compute
state now` returns the value served, the new state, and whether `compute`
(the body, i.e. the whole aggregation pass) actually ran. -/
def ttlSeconds : Nat := 3600

def cachedSnapshot {α : Type} (compute : Unit → α)
    (state : Option (α × Nat)) (now : Nat) :
    α × Option (α × Nat) × Bool :=
  match state with
  | some (v, t0) =>
    if now < t0 + ttlSeconds then (v, some (v, t0), false)
    else
      let v' := compute ()
      (v', some (v', now), true)
  | none =>
    let v := compute ()
    (v, some (v, now), true)

/-- A sequence of calls to `get_data_with_retry`, threading the lru_cache;
every call uses an oracle that succeeds immediately with an empty
dataframe.  Returns the per-call remote-call counts, in order. -/
def runCalls (c : Cache) : List Key → List Nat
  | [] => []
  | k :: ks =>
    let r := get_data_with_retry c k (fun _ => .ok []) 3
    r.remoteCalls :: runCalls r.cache ks

/-- The concrete call sequence refuting unbounded memoization: key `k0`,
then 32 other pairwise-distinct keys, then `k0` again. -/
def evictKey (i : Nat) : Key := (toString i, "20250101", "20250108")

def evictTrace : List Key :=
  evictKey 0 :: ((List.range 32).map fun i => evictKey (i + 1)) ++ [evictKey 0]

/-- Whether the fetch for sector `s` raises (after retries are exhausted):
the failure notion of the spec's aggregation counts. -/
def fetchFails (fetch : String → Except Err Df) (s : String) : Bool :=
  match fetch s with
  | .error _ => true
  | .ok _ => false

/-- A concrete trading row used to instantiate the theorems below:
2.5 percent-change, 3.0 turnover rate, 2.5e8 turnover amount. -/
def sampleRow : HistRow :=
  { date := "2025-01-10"
    openPrice := some 10
    closePrice := some (41 / 4)
    high := some 11
    low := some (39 / 4)
    volume := some 120000
    amount := some 250000000
    amplitude := some 2
    pctChg := some (5 / 2)
    turnoverRate := some 3 }

/-- The sample row tagged with a sector name, as `process_data` receives it. -/
def sampleBoardRow : BoardRow := { row := sampleRow, sectorName := "steel" }

/-- Helper: the retry loop entered at attempt `a` with `r = mr - a`
iterations left, when every attempt below `m` raises and attempt `m`
returns: it returns attempt `m`'s dataframe after sleeping
`2^a, ..., 2^(m-1)` and making `m - a + 1` remote calls. -/
theorem retryLoop_ok_after (oracle : Oracle) (mr m : Nat) (v : Df)
    (hfail : ∀ i, i < m → ∃ e, oracle i = Except.error e)
    (hok : oracle m = Except.ok v) (hm : m < mr) :
    ∀ r a, a + r = mr → a ≤ m →
      retryLoop oracle mr a r =
        (some (Except.ok v), (List.range' a (m - a)).map (fun i => 2 ^ i),
          m - a + 1) := by
  intro r
  induction r with
  | zero => intro a ha ham; omega
  | succ n ih =>
    intro a ha ham
    rcases Nat.lt_or_ge a m with hlt | hge
    · obtain ⟨e, he⟩ := hfail a hlt
      have hne : ¬(a = mr - 1) := by omega
      have hrec := ih (a + 1) (by omega) (by omega)
      have hma : m - a = (m - (a + 1)) + 1 := by omega
      rw [hma, List.range'_succ]
      simp only [retryLoop, he, if_neg hne, hrec, List.map_cons]
    · have ham2 : a = m := by omega
      subst ham2
      simp [retryLoop, hok, Nat.sub_self]

/-- Helper: the retry loop entered at attempt `a < mr` with `r = mr - a`
iterations left, when every attempt below `mr` raises: it re-raises the
last attempt's error after sleeping `2^a, ..., 2^(mr-2)` and making
`mr - a` remote calls. -/
theorem retryLoop_all_fail_after (oracle : Oracle) (mr : Nat)
    (es : Nat → Err) (hfail : ∀ i, i < mr → oracle i = Except.error (es i)) :
    ∀ r a, a + r = mr → a < mr →
      retryLoop oracle mr a r =
        (some (Except.error (es (mr - 1))),
          (List.range' a (mr - 1 - a)).map (fun i => 2 ^ i), mr - a) := by
  intro r
  induction r with
  | zero => intro a ha ham; omega
  | succ n ih =>
    intro a ha ham
    have he := hfail a ham
    rcases Nat.decEq a (mr - 1) with hne | hlast
    · have hrec := ih (a + 1) (by omega) (by omega)
      have hma : mr - 1 - a = (mr - 1 - (a + 1)) + 1 := by omega
      have hcnt : mr - a = (mr - (a + 1)) + 1 := by omega
      rw [hma, hcnt, List.range'_succ]
      simp only [retryLoop, he, if_neg hne, hrec, List.map_cons]
    · subst hlast
      have h0 : mr - 1 - (mr - 1) = 0 := by omega
      have h1 : mr - (mr - 1) = 1 := by omega
      simp [retryLoop, he, h0, h1]

/-- C3: if the remote call fails exactly `m` times and then succeeds, with
`m < max_retries`, then `get_data_with_retry` (on a cache not holding the
key — here the empty cache) returns the successful dataframe, caches it,
makes `m + 1` remote calls and sleeps exactly `m` times with durations
`2^0, 2^1, ..., 2^(m-1)`, in that order. -/
theorem get_data_with_retry_fail_then_succeed (k : Key) (oracle : Oracle)
    (m mr : Nat) (v : Df) (hm : m < mr)
    (hfail : ∀ i, i < m → ∃ e, oracle i = Except.error e)
    (hok : oracle m = Except.ok v) :
    get_data_with_retry [] k oracle mr =
      ⟨some (Except.ok v), [(k, v)], m + 1,
        (List.range m).map (fun i => 2 ^ i)⟩ := by
  have h := retryLoop_ok_after oracle mr m v hfail hok hm mr 0 (by omega)
    (by omega)
  simp [get_data_with_retry, cacheLookup, h, cacheInsert, lruMaxsize,
    List.range_eq_range']

/-- C3 witness: an oracle failing twice then returning the empty dataframe,
with `max_retries = 3`: the call returns the dataframe, caches it, makes 3
remote calls and sleeps 1 then 2 time units. -/
theorem get_data_with_retry_fail_then_succeed_witness :
    get_data_with_retry [] ("semiconductor", "20250101", "20250108")
        (fun i => if i < 2 then Except.error "timeout" else Except.ok []) 3 =
      ⟨some (Except.ok []), [(("semiconductor", "20250101", "20250108"), [])],
        3, [1, 2]⟩ :=
  get_data_with_retry_fail_then_succeed _ _ 2 3 [] (by omega)
    (fun i hi => ⟨"timeout", by simp [hi]⟩) (by simp)

/-- C4: if the remote call fails on all `max_retries ≥ 1` attempts, then
`get_data_with_retry` (on a cache not holding the key) re-raises the last
attempt's error, leaves the cache exactly as it was (nothing is cached for
the key), makes `max_retries` remote calls, and sleeps exactly
`max_retries - 1` times (no sleep after the final failed attempt). -/
theorem get_data_with_retry_all_fail (c : Cache) (k : Key) (oracle : Oracle)
    (mr : Nat) (es : Nat → Err) (hmr : 1 ≤ mr)
    (hmiss : cacheLookup c k = none)
    (hfail : ∀ i, i < mr → oracle i = Except.error (es i)) :
    get_data_with_retry c k oracle mr =
      ⟨some (Except.error (es (mr - 1))), c, mr,
        (List.range (mr - 1)).map (fun i => 2 ^ i)⟩ := by
  have h := retryLoop_all_fail_after oracle mr es hfail mr 0 (by omega)
    (by omega)
  simp [get_data_with_retry, hmiss, h, List.range_eq_range']

/-- C4 witness: an always-failing oracle with `max_retries = 3`: the call
raises the third attempt's error, caches nothing, makes 3 remote calls and
sleeps 1 then 2 time units. -/
theorem get_data_with_retry_all_fail_witness :
    cacheLookup [] ("semiconductor", "20250101", "20250108") = none ∧
    get_data_with_retry [] ("semiconductor", "20250101", "20250108")
        (fun i => Except.error (toString i)) 3 =
      ⟨some (Except.error "2"), [], 3, [1, 2]⟩ :=
  ⟨rfl, get_data_with_retry_all_fail [] _ _ 3 (fun i => toString i)
    (by omega) rfl (fun i _ => rfl)⟩

/-- C1: for any request key, when the first call's fetch succeeds (here on
its first attempt), a second call to `get_data_with_retry` with the
identical key is served from the cache: the two calls together make exactly
one remote call, and the second call returns the first call's result with
no remote activity and no backoff wait — whatever oracle and retry ceiling
the second call would have used. -/
theorem get_data_with_retry_memoized (k : Key) (oracle oracle2 : Oracle)
    (mr mr2 : Nat) (v : Df) (hmr : 1 ≤ mr) (h0 : oracle 0 = Except.ok v) :
    (get_data_with_retry [] k oracle mr).result = some (Except.ok v) ∧
    (get_data_with_retry [] k oracle mr).remoteCalls = 1 ∧
    (get_data_with_retry (get_data_with_retry [] k oracle mr).cache
        k oracle2 mr2).result = (get_data_with_retry [] k oracle mr).result ∧
    (get_data_with_retry (get_data_with_retry [] k oracle mr).cache
        k oracle2 mr2).remoteCalls = 0 ∧
    (get_data_with_retry (get_data_with_retry [] k oracle mr).cache
        k oracle2 mr2).sleeps = [] := by
  have h1 : get_data_with_retry [] k oracle mr =
      ⟨some (Except.ok v), [(k, v)], 1, []⟩ := by
    obtain ⟨n, rfl⟩ : ∃ n, mr = n + 1 := ⟨mr - 1, by omega⟩
    simp [get_data_with_retry, cacheLookup, retryLoop, h0, cacheInsert,
      lruMaxsize]
  rw [h1]
  simp [get_data_with_retry, cacheLookup]

/-- C1 witness: a first call with an immediately-successful oracle followed
by a second call with a hostile oracle: one remote call in total, and the
second call is a pure cache hit. -/
theorem get_data_with_retry_memoized_witness :
    1 ≤ 3 ∧
    ((get_data_with_retry [] ("steel", "20250101", "20250108")
        (fun _ => Except.ok []) 3).result = some (Except.ok []) ∧
    (get_data_with_retry [] ("steel", "20250101", "20250108")
        (fun _ => Except.ok []) 3).remoteCalls = 1 ∧
    (get_data_with_retry (get_data_with_retry [] ("steel", "20250101",
        "20250108") (fun _ => Except.ok []) 3).cache
        ("steel", "20250101", "20250108")
        (fun _ => Except.error "network down") 5).result =
      (get_data_with_retry [] ("steel", "20250101", "20250108")
        (fun _ => Except.ok []) 3).result ∧
    (get_data_with_retry (get_data_with_retry [] ("steel", "20250101",
        "20250108") (fun _ => Except.ok []) 3).cache
        ("steel", "20250101", "20250108")
        (fun _ => Except.error "network down") 5).remoteCalls = 0 ∧
    (get_data_with_retry (get_data_with_retry [] ("steel", "20250101",
        "20250108") (fun _ => Except.ok []) 3).cache
        ("steel", "20250101", "20250108")
        (fun _ => Except.error "network down") 5).sleeps = []) :=
  ⟨by omega, get_data_with_retry_memoized ("steel", "20250101", "20250108")
    (fun _ => Except.ok []) (fun _ => Except.error "network down") 3 5 []
    (by omega) rfl⟩

/-- C5: aggregation over `N` sectors of which `K` fail (fetch raises after
retries) yields exactly `N - K` rows, each tagged with its originating
sector name (the kept tags are precisely the succeeding sectors, in order),
and exactly `K` warnings naming precisely the failing sectors; when all `N`
fail the table is empty.  `get_board_data` is a total function, so no
per-sector failure escapes the pass.  The hypothesis rules out a succeeding
fetch with an empty dataframe (that case is claim C9's). -/
theorem get_board_data_partition (sectors : List String)
    (fetch : String → Except Err Df)
    (hne : ∀ s ∈ sectors, fetch s ≠ Except.ok ([] : Df)) :
    ((get_board_data sectors fetch).1.map Prod.snd =
        sectors.filter fun s => !(fetchFails fetch s)) ∧
    ((get_board_data sectors fetch).2.map Prod.fst =
        sectors.filter (fetchFails fetch)) ∧
    (get_board_data sectors fetch).1.length =
        sectors.length - (sectors.filter (fetchFails fetch)).length ∧
    (get_board_data sectors fetch).2.length =
        (sectors.filter (fetchFails fetch)).length ∧
    ((sectors.filter (fetchFails fetch)).length = sectors.length →
        (get_board_data sectors fetch).1 = []) := by
  have key : ∀ l : List String, (∀ s ∈ l, fetch s ≠ Except.ok ([] : Df)) →
      ((get_board_data l fetch).1.map Prod.snd =
          l.filter fun s => !(fetchFails fetch s)) ∧
      ((get_board_data l fetch).2.map Prod.fst =
          l.filter (fetchFails fetch)) := by
    intro l
    induction l with
    | nil => intro _; simp [get_board_data]
    | cons name rest ih =>
      intro hcons
      have hrest := ih fun s hs => hcons s (List.mem_cons_of_mem _ hs)
      have hname := hcons name (List.mem_cons_self _ _)
      cases hfetch : fetch name with
      | error e =>
        have hf : fetchFails fetch name = true := by
          simp [fetchFails, hfetch]
        simp [get_board_data, fetchLatest, hfetch, Except.bind, hf,
          hrest.1, hrest.2, List.filter_cons]
      | ok df =>
        have hdf : df ≠ [] := fun h => hname (h ▸ hfetch)
        have hr := List.getLast?_eq_getLast_of_ne_nil hdf
        have hf : fetchFails fetch name = false := by
          simp [fetchFails, hfetch]
        simp [get_board_data, fetchLatest, hfetch, Except.bind, iloc_last,
          hr, hf, hrest.1, hrest.2, List.filter_cons]
  obtain ⟨h1, h2⟩ := key sectors hne
  have e1 : (get_board_data sectors fetch).1.length =
      (sectors.filter fun s => !(fetchFails fetch s)).length := by
    rw [← h1, List.length_map]
  have e2 : (get_board_data sectors fetch).2.length =
      (sectors.filter (fetchFails fetch)).length := by
    rw [← h2, List.length_map]
  have etot := List.length_eq_length_filter_add
    (l := sectors) (fetchFails fetch)
  refine ⟨h1, h2, by omega, e2, fun hK => ?_⟩
  exact List.eq_nil_of_length_eq_zero (by omega)

/-- C5 witness: three sectors of which the middle one fails: two tagged
rows, one warning, lengths 2 = 3 - 1 and 1. -/
theorem get_board_data_partition_witness :
    (∀ s ∈ ["coal", "steel", "banking"],
        (fun t => if t = "steel" then Except.error "fetch failed"
          else Except.ok [sampleRow]) s ≠ Except.ok ([] : Df)) ∧
    (((get_board_data ["coal", "steel", "banking"]
        (fun t => if t = "steel" then Except.error "fetch failed"
          else Except.ok [sampleRow])).1.map Prod.snd =
        ["coal", "banking"]) ∧
    ((get_board_data ["coal", "steel", "banking"]
        (fun t => if t = "steel" then Except.error "fetch failed"
          else Except.ok [sampleRow])).2.map Prod.fst = ["steel"]) ∧
    (get_board_data ["coal", "steel", "banking"]
        (fun t => if t = "steel" then Except.error "fetch failed"
          else Except.ok [sampleRow])).1.length = 3 - 1 ∧
    (get_board_data ["coal", "steel", "banking"]
        (fun t => if t = "steel" then Except.error "fetch failed"
          else Except.ok [sampleRow])).2.length = 1 ∧
    (1 = 3 → (get_board_data ["coal", "steel", "banking"]
        (fun t => if t = "steel" then Except.error "fetch failed"
          else Except.ok [sampleRow])).1 = [])) := by
  constructor
  · decide
  · have h := get_board_data_partition ["coal", "steel", "banking"]
      (fun t => if t = "steel" then Except.error "fetch failed"
        else Except.ok [sampleRow]) (by decide)
    simpa [fetchFails] using h

/-- C9: a sector whose fetch succeeds with a zero-row dataframe behaves
exactly like a fetch failure in `get_board_data`: the IndexError raised by
`df.iloc[-1]` is caught by the same `except` clause, a warning naming that
sector is emitted, the sector contributes no row, and the pass continues
with the remaining sectors untouched. -/
theorem get_board_data_empty_df (name : String) (rest : List String)
    (fetch : String → Except Err Df) (hf : fetch name = Except.ok ([] : Df)) :
    get_board_data (name :: rest) fetch =
      ((get_board_data rest fetch).1,
        (name, "single positional indexer is out-of-bounds") ::
          (get_board_data rest fetch).2) := by
  simp [get_board_data, fetchLatest, hf, Except.bind, iloc_last]

/-- C9 witness: sector "coal" fetches an empty dataframe; "banking" is
still aggregated and "coal" yields exactly the IndexError warning. -/
theorem get_board_data_empty_df_witness :
    ((fun t => if t = "coal" then Except.ok ([] : Df)
        else Except.ok [sampleRow]) : String → Except Err Df) "coal" =
      Except.ok ([] : Df) ∧
    get_board_data ["coal", "banking"]
        ((fun t => if t = "coal" then Except.ok ([] : Df)
          else Except.ok [sampleRow]) : String → Except Err Df) =
      ((get_board_data ["banking"]
          ((fun t => if t = "coal" then Except.ok ([] : Df)
            else Except.ok [sampleRow]) : String → Except Err Df)).1,
        ("coal", "single positional indexer is out-of-bounds") ::
          (get_board_data ["banking"]
            ((fun t => if t = "coal" then Except.ok ([] : Df)
              else Except.ok [sampleRow]) : String → Except Err Df)).2) :=
  ⟨by decide, get_board_data_empty_df "coal" ["banking"] _ (by decide)⟩

/-- C6: for any input row with stored percent-change 2.5, turnover rate
3.0 and turnover amount 2.5e8, the transform yields volume-price-intensity
7.5 (computed before the scaling), a final percent-change column of 250
(the stored value multiplied by 100), and 2.5 in the hundred-million-yuan
amount column.  `processRow` is a pure function, so the transform is
deterministic by construction. -/
theorem processRow_example (b : BoardRow)
    (h1 : b.row.pctChg = some (5 / 2))
    (h2 : b.row.turnoverRate = some 3)
    (h3 : b.row.amount = some 250000000) :
    (processRow b).volPriceIntensity = some (15 / 2) ∧
    (processRow b).pctChg = some 250 ∧
    (processRow b).amountYi = some (5 / 2) := by
  refine ⟨?_, ?_, ?_⟩ <;>
    simp [processRow, cellMul, cellDiv, h1, h2, h3] <;> norm_num

/-- C6 witness: the sample row (2.5, 3.0, 2.5e8) evaluates to
(7.5, 250, 2.5). -/
theorem processRow_example_witness :
    sampleBoardRow.row.pctChg = some (5 / 2) ∧
    sampleBoardRow.row.turnoverRate = some 3 ∧
    sampleBoardRow.row.amount = some 250000000 ∧
    ((processRow sampleBoardRow).volPriceIntensity = some (15 / 2) ∧
      (processRow sampleBoardRow).pctChg = some 250 ∧
      (processRow sampleBoardRow).amountYi = some (5 / 2)) :=
  ⟨rfl, rfl, rfl, processRow_example sampleBoardRow rfl rfl rfl⟩

/-- C10: every row of a table returned by `process_data` (when it returns
one — on the empty aggregate it raises instead) has a parsed (non-NaN)
percent-change and a strictly positive volume, whatever the input: the
`dropna(subset=['涨跌幅'])` and `df['成交量'] > 0` steps drop all
offending rows. -/
theorem process_data_invariant (df : List BoardRow) (rows : List ProcRow)
    (r : ProcRow) (hp : process_data df = Except.ok rows) (hr : r ∈ rows) :
    r.pctChg.isSome = true ∧ ∃ v, r.volume = some v ∧ 0 < v := by
  cases df with
  | nil => simp [process_data] at hp
  | cons b bs =>
    simp only [process_data] at hp
    injection hp with hp
    subst hp
    unfold processRows at hr
    rw [List.mem_filter] at hr
    obtain ⟨hr1, hvol⟩ := hr
    rw [List.mem_filter] at hr1
    refine ⟨hr1.2, ?_⟩
    unfold volumePositive at hvol
    cases hv : r.volume with
    | none => rw [hv] at hvol; simp at hvol
    | some v =>
      rw [hv] at hvol
      simp only [decide_eq_true_eq] at hvol
      exact ⟨v, rfl, hvol⟩

/-- C10 witness: the processed sample row is in the table returned by
`process_data` and satisfies the invariant. -/
theorem process_data_invariant_witness :
    process_data [sampleBoardRow] = Except.ok [processRow sampleBoardRow] ∧
    processRow sampleBoardRow ∈ [processRow sampleBoardRow] ∧
    ((processRow sampleBoardRow).pctChg.isSome = true ∧
      ∃ v, (processRow sampleBoardRow).volume = some v ∧ 0 < v) :=
  ⟨by norm_num [process_data, processRows, processRow, sampleBoardRow,
      sampleRow, cellMul, cellDiv, volumePositive],
    by simp,
    process_data_invariant [sampleBoardRow] [processRow sampleBoardRow] _
      (by norm_num [process_data, processRows, processRow, sampleBoardRow,
        sampleRow, cellMul, cellDiv, volumePositive])
      (by simp)⟩

/-- C7 counterexample: the claim fails in the all-sectors-fail case.  When
every sector fails, `get_board_data` returns the empty aggregate (first
conjunct), on which `process_data` raises the KeyError of line 51 (the
empty frame has no columns), and `main` — whose call to `process_data` at
line 109 sits in no try/except — crashes with that error instead of ever
reaching the advisory warning of lines 117-119. -/
theorem main_crash_on_empty_aggregate :
    (get_board_data ["coal", "steel"] (fun _ => Except.error "down")).1 =
      [] ∧
    process_data ([] : List BoardRow) =
      Except.error "None of [numeric_cols] are in the [columns]" ∧
    mainAfterLoad [] "2025-01-01" =
      MainOutcome.crashed "None of [numeric_cols] are in the [columns]" ∧
    mainAfterLoad [] "2025-01-01" ≠ MainOutcome.emptyWarning :=
  ⟨rfl, rfl, rfl, by decide⟩

/-- C7 amended: when the transform step returns a table (which it does
exactly when the aggregate is nonempty; on the empty aggregate it raises a
KeyError that crashes `main` — see the counterexample) and that table is
empty after the trailing-days date filter, `main` emits the non-fatal
advisory warning and returns without producing a chart; and (propagation
policy) a per-sector fetch error never aborts the aggregation pass — the
failing sector only adds its warning, the remaining sectors are processed
exactly as before. -/
theorem main_empty_filter_advisory (raw : List BoardRow) (cutoff : String)
    (rows : List ProcRow) (hp : process_data raw = Except.ok rows)
    (hf : dateFilter cutoff rows = []) :
    mainAfterLoad raw cutoff = MainOutcome.emptyWarning ∧
    ∀ (name : String) (rest : List String)
        (fetch : String → Except Err Df) (e : Err),
      fetch name = Except.error e →
        get_board_data (name :: rest) fetch =
          ((get_board_data rest fetch).1,
            (name, e) :: (get_board_data rest fetch).2) := by
  constructor
  · simp [mainAfterLoad, hp, hf]
  · intro name rest fetch e hfe
    simp [get_board_data, fetchLatest, hfe, Except.bind]

/-- C7 amended witness: one aggregated row whose date lies before the
cutoff: the transform returns it, the date filter drops it, and `main`
lands in the advisory-warning outcome. -/
theorem main_empty_filter_advisory_witness :
    process_data [sampleBoardRow] = Except.ok [processRow sampleBoardRow] ∧
    dateFilter "2026-01-01" [processRow sampleBoardRow] = [] ∧
    (mainAfterLoad [sampleBoardRow] "2026-01-01" =
        MainOutcome.emptyWarning ∧
      ∀ (name : String) (rest : List String)
          (fetch : String → Except Err Df) (e : Err),
        fetch name = Except.error e →
          get_board_data (name :: rest) fetch =
            ((get_board_data rest fetch).1,
              (name, e) :: (get_board_data rest fetch).2)) :=
  ⟨by norm_num [process_data, processRows, processRow, sampleBoardRow,
      sampleRow, cellMul, cellDiv, volumePositive],
    rfl,
    main_empty_filter_advisory [sampleBoardRow] "2026-01-01"
      [processRow sampleBoardRow]
      (by norm_num [process_data, processRows, processRow, sampleBoardRow,
        sampleRow, cellMul, cellDiv, volumePositive])
      rfl⟩

/-- C8: the aggregation result is wrapped in a snapshot cache with a
one-hour time-to-live: a repeated call within `ttlSeconds` of the first
returns the very snapshot computed by the first call, and the aggregation
body — hence every sector fetch — does not run again. -/
theorem get_board_data_ttl_snapshot (sectors : List String)
    (fetch : String → Except Err Df) (t0 t1 : Nat)
    (h : t1 < t0 + ttlSeconds) :
    (cachedSnapshot (fun _ : Unit => get_board_data sectors fetch)
        ((cachedSnapshot (fun _ : Unit => get_board_data sectors fetch)
          none t0).2.1) t1).1 = get_board_data sectors fetch ∧
    (cachedSnapshot (fun _ : Unit => get_board_data sectors fetch)
        ((cachedSnapshot (fun _ : Unit => get_board_data sectors fetch)
          none t0).2.1) t1).2.2 = false := by
  constructor <;> simp [cachedSnapshot, h]

/-- C8 witness: a second aggregation call 3599 seconds after the first is
served from the snapshot without recomputation. -/
theorem get_board_data_ttl_snapshot_witness :
    3599 < 0 + ttlSeconds ∧
    ((cachedSnapshot (fun _ : Unit => get_board_data ["coal"]
        (fun _ => Except.ok [sampleRow]))
        ((cachedSnapshot (fun _ : Unit => get_board_data ["coal"]
          (fun _ => Except.ok [sampleRow])) none 0).2.1) 3599).1 =
      get_board_data ["coal"] (fun _ => Except.ok [sampleRow]) ∧
    (cachedSnapshot (fun _ : Unit => get_board_data ["coal"]
        (fun _ => Except.ok [sampleRow]))
        ((cachedSnapshot (fun _ : Unit => get_board_data ["coal"]
          (fun _ => Except.ok [sampleRow])) none 0).2.1) 3599).2.2 =
      false) :=
  ⟨by decide, get_board_data_ttl_snapshot ["coal"]
    (fun _ => Except.ok [sampleRow]) 0 3599 (by decide)⟩

/-- C2 counterexample: the `lru_cache(maxsize=32)` memoization is NOT
permanent regardless of how many other distinct keys are fetched.  In the
concrete call sequence `evictTrace` — key 0, then 32 pairwise-distinct
other keys, then key 0 again — every call, including the final repeat of
key 0, performs a remote call (`List.replicate 34 1`): the entry cached by
the first call was evicted, so the repeated call is not served from the
cache. -/
theorem lru_eviction_refutes_permanence :
    evictTrace.head? = some (evictKey 0) ∧
    evictTrace.getLast? = some (evictKey 0) ∧
    evictTrace.length = 34 ∧
    runCalls [] evictTrace = List.replicate 34 1 := by
  refine ⟨rfl, by decide, by decide, by decide⟩

/-- Helper: filtering with a predicate that is false somewhere in the list
strictly shrinks it. -/
theorem length_filter_lt_of_mem {α : Type} {l : List α} {q : α → Bool}
    {x : α} (hx : x ∈ l) (hqx : q x = false) :
    (l.filter q).length < l.length := by
  induction l with
  | nil => cases hx
  | cons a as ih =>
    rcases List.mem_cons.mp hx with rfl | hmem
    · rw [List.filter_cons, hqx]
      exact Nat.lt_succ_of_le (List.length_filter_le _ _)
    · rw [List.filter_cons]
      cases hqa : q a
      · simpa using Nat.lt_succ_of_lt (ih hmem)
      · simpa using Nat.succ_lt_succ (ih hmem)

/-- C2 amended: the memoization cache of `get_data_with_retry` is keyed by
the (sector, start date, end date) triple but is bounded: it is an LRU
cache of capacity 32 (`maxsize=32`), so a call never leaves more than 32
entries, and an entry survives only until 32 more-recently-used distinct
keys displace it.  While a key is cached, a repeated call returns the
cached result with no remote call and the key stays cached (no TTL: time
plays no role). -/
theorem lru_cache_bounded_and_hit (c : Cache) (k : Key) (oracle : Oracle)
    (mr : Nat) (hb : c.length ≤ lruMaxsize) :
    (get_data_with_retry c k oracle mr).cache.length ≤ lruMaxsize ∧
    ∀ v, cacheLookup c k = some v →
      (get_data_with_retry c k oracle mr).result = some (Except.ok v) ∧
      (get_data_with_retry c k oracle mr).remoteCalls = 0 ∧
      cacheLookup (get_data_with_retry c k oracle mr).cache k = some v := by
  constructor
  · cases hl : cacheLookup c k with
    | some v =>
      have hex : ∃ p, p ∈ c ∧ (fun p => !(decide (p.1 = k))) p = false := by
        unfold cacheLookup at hl
        cases hf : c.find? (fun p => decide (p.1 = k)) with
        | none => rw [hf] at hl; simp at hl
        | some p =>
          have hmem := List.mem_of_find?_eq_some hf
          have hp := List.find?_some hf
          exact ⟨p, hmem, by simp [hp]⟩
      obtain ⟨p, hmem, hq⟩ := hex
      have hlt := @length_filter_lt_of_mem _ c
        (fun p => !(decide (p.1 = k))) p hmem hq
      simp only [get_data_with_retry, hl, cacheTouch, List.length_cons]
      omega
    | none =>
      cases hres : (retryLoop oracle mr 0 mr).1 with
      | none => simpa [get_data_with_retry, hl, hres] using hb
      | some x =>
        cases x with
        | ok df =>
          simp only [get_data_with_retry, hl, hres, cacheInsert]
          rw [List.length_take]
          exact inf_le_left
        | error e => simpa [get_data_with_retry, hl, hres] using hb
  · intro v hv
    have hcall : get_data_with_retry c k oracle mr =
        ⟨some (Except.ok v), cacheTouch c k v, 0, []⟩ := by
      simp only [get_data_with_retry, hv]
    rw [hcall]
    refine ⟨rfl, rfl, ?_⟩
    unfold cacheLookup cacheTouch
    rw [List.find?_cons_of_pos _ (by simp)]
    rfl

/-- C2 amended witness: a one-entry cache holding the key: the repeated
call is a pure hit, the bound is kept, the key remains cached. -/
theorem lru_cache_bounded_and_hit_witness :
    ([(("A", "20250101", "20250108"), ([] : Df))] : Cache).length ≤
      lruMaxsize ∧
    ((get_data_with_retry [(("A", "20250101", "20250108"), ([] : Df))]
        ("A", "20250101", "20250108") (fun _ => Except.error "down")
        3).cache.length ≤ lruMaxsize ∧
    ∀ v, cacheLookup [(("A", "20250101", "20250108"), ([] : Df))]
        ("A", "20250101", "20250108") = some v →
      (get_data_with_retry [(("A", "20250101", "20250108"), ([] : Df))]
          ("A", "20250101", "20250108") (fun _ => Except.error "down")
          3).result = some (Except.ok v) ∧
      (get_data_with_retry [(("A", "20250101", "20250108"), ([] : Df))]
          ("A", "20250101", "20250108") (fun _ => Except.error "down")
          3).remoteCalls = 0 ∧
      cacheLookup (get_data_with_retry
          [(("A", "20250101", "20250108"), ([] : Df))]
          ("A", "20250101", "20250108") (fun _ => Except.error "down")
          3).cache ("A", "20250101", "20250108") = some v) :=
  ⟨by decide, lru_cache_bounded_and_hit
    [(("A", "20250101", "20250108"), ([] : Df))]
    ("A", "20250101", "20250108") (fun _ => Except.error "down") 3
    (by decide)⟩
